import Mathlib

/-!
A verification development for the redismq request/response messaging layer.

The embedding models the Redis backing state (key/value store, named FIFO
queues, published pub/sub messages) as association lists, and translates the
operations of `Channel`/`Sender`/`Receiver` (redismq.py) and of
`send_message`/`Consumers._run` (message_queue_client.py) into pure Lean
functions.  External effects whose outcome the code only observes as a flag
(the RQueue primitive and the individual Redis command results inside a
pipeline) are passed in as explicit Boolean or Option parameters, one per
observed result, exactly where the Python code reads them.
-/

namespace RedisMQ

/-- The modelled Redis backing state: the key/value store, the named FIFO
queues, and the ordered log of pub/sub messages published so far. -/
structure RedisState where
  store : List (String × String)
  queues : List (String × List String)
  published : List (String × String)
deriving DecidableEq, Repr

/-- Key formatting helper, from the source constant
PATTERN = channel_ followed by the kind, a colon and the argument. -/
def pattern (kind arg : String) : String :=
  "channel_" ++ kind ++ ":" ++ arg

/-- The request-identifier queue key of a channel: pattern requests name. -/
def reqQueueKey (name : String) : String := pattern "requests" name

/-- The payload-store key of a request: pattern request id.
Note the key is derived from the identifier alone, not the channel name. -/
def reqKey (id : String) : String := pattern "request" id

/-- The response sub-queue key for one request identifier:
pattern response name, a colon, then the identifier. -/
def rspQueueKey (name id : String) : String :=
  pattern "response" name ++ ":" ++ id

/-- The response-ready notification topic of a channel:
pattern responses name. -/
def rspTopic (name : String) : String := pattern "responses" name

/-- redis GET on the store. -/
def storeGet (st : RedisState) (k : String) : Option String :=
  st.store.lookup k

/-- redis SET on the store. -/
def storeSet (st : RedisState) (k v : String) : RedisState :=
  { st with store := (k, v) :: st.store }

/-- redis DELETE on the store (state effect). -/
def storeDel (st : RedisState) (k : String) : RedisState :=
  { st with store := st.store.filter (fun p => p.1 != k) }

/-- Whether the store holds key k; bool(redis.delete(k)) returns this. -/
def storeHas (st : RedisState) (k : String) : Bool :=
  (storeGet st k).isSome

/-- The current contents of the named FIFO queue k. -/
def queueGet (st : RedisState) (k : String) : List String :=
  (st.queues.lookup k).getD []

/-- Push v at the tail of queue k (the RQueue push effect on success). -/
def queuePush (st : RedisState) (k v : String) : RedisState :=
  { st with queues := (k, queueGet st k ++ [v]) :: st.queues }

/-- Pop the head of queue k (the RQueue pop effect), returning the popped
item, if any, and the updated state. -/
def queuePop (st : RedisState) (k : String) : Option String × RedisState :=
  match queueGet st k with
  | [] => (none, st)
  | v :: rest => (some v, { st with queues := (k, rest) :: st.queues })

/-- redis PUBLISH: append the (topic, message) pair to the publication log. -/
def publish (st : RedisState) (topic msg : String) : RedisState :=
  { st with published := st.published ++ [(topic, msg)] }

/-- The identifier chosen by Sender.send_req: str(uuid.uuid4()) if not _id
else _id.  Python truthiness makes both None and the empty string fall back
to the freshly generated uuid string. -/
def chooseId (_id : Option String) (fresh : String) : String :=
  match _id with
  | none => fresh
  | some s => if s = "" then fresh else s

/-- Sender.send_req.  The two commands are queued on one redis pipeline
(MULTI/EXEC): each command either succeeds and takes effect or fails and has
no effect, but a failure of one does not roll back or suppress the other —
redis transactions have no rollback.  setOk and pushOk are the two result
flags the code unpacks from pipe.execute(); fresh stands for the
str(uuid.uuid4()) draw.  Returns the identifier when both flags are true,
none otherwise, together with the post-state. -/
def send_req (st : RedisState) (name : String) (_id : Option String)
    (value fresh : String) (setOk pushOk : Bool) :
    Option String × RedisState :=
  let req_id := chooseId _id fresh
  let st1 := if setOk then storeSet st (reqKey req_id) value else st
  let st2 := if pushOk then queuePush st1 (reqQueueKey name) req_id else st1
  (if setOk && pushOk then some req_id else none, st2)

/-- Receiver.recv_req.  The blocking pop on the request queue is the opaque
RQueue primitive; popped is the identifier it returned within the timeout,
or none on timeout.  The code then checks the popped value for Python
truthiness and loads the payload from the store. -/
def recv_req (st : RedisState) (popped : Option String) :
    Option String × Option String :=
  match popped with
  | some id => if id = "" then (none, none) else (some id, storeGet st (reqKey id))
  | none => (none, none)

/-- Receiver.ack_req.  ackOk is the result of the opaque RQueue ack call on
the identifier; only when it is true does the code issue the store delete,
returning bool(redis.delete(key)). -/
def ack_req (st : RedisState) (id : String) (ackOk : Bool) :
    Bool × RedisState :=
  if ackOk then (storeHas st (reqKey id), storeDel st (reqKey id))
  else (false, st)

/-- Receiver.send_rsp.  pushOk is the result of the RQueue push of the
payload onto the identifier-scoped response queue; only on success does the
code publish the identifier on the response-ready topic and return True. -/
def send_rsp (st : RedisState) (name id value : String) (pushOk : Bool) :
    Bool × RedisState :=
  if pushOk then
    (true, publish (queuePush st (rspQueueKey name id) value) (rspTopic name) id)
  else (false, st)

/-- Sender.get_rsp: non-blocking pop from the identifier-scoped response
queue. -/
def get_rsp (st : RedisState) (name id : String) :
    Option String × RedisState :=
  queuePop st (rspQueueKey name id)

/-! The gRPC-facing client of message_queue_client.py.  The MessageQueue
stub calls are remote operations; each call is recorded as an effect, and
the values the remote side returns are passed in as parameters. -/

/-- One remote MessageQueue stub call issued by send_message. -/
inductive MQEffect
  | sendReqE (svc fn payload : String)
  | recvRspE (svc fn reqId : String) (tmo : Nat)
  | ackRspE (svc fn reqId payload : String)
deriving DecidableEq, Repr

/-- The argument of the TimeoutError raised by send_message: the service
name, a dot, the function name. -/
def timeoutMsg (svc fn : String) : String := svc ++ "." ++ fn

/-- send_message(service_name, func_name, params, rsp_to): sends the request
via the stub, blocks for the response up to the timeout, raises TimeoutError
when the response is absent (the protobuf payload is the empty string), and
otherwise acknowledges the response and returns json.loads of it.  reqId is
the identifier the remote send_req call returned; rsp is the payload the
remote recv_rsp call returned; decode stands for json.loads.  Returns the
ordered list of stub calls issued together with the outcome. -/
def send_message (svc fn payload : String) (tmo : Nat) (reqId rsp : String)
    (decode : String → String) : List MQEffect × Except String String :=
  if rsp = "" then
    ([MQEffect.sendReqE svc fn payload, MQEffect.recvRspE svc fn reqId tmo],
     Except.error (timeoutMsg svc fn))
  else
    ([MQEffect.sendReqE svc fn payload, MQEffect.recvRspE svc fn reqId tmo,
      MQEffect.ackRspE svc fn reqId rsp],
     Except.ok (decode rsp))

/-- A Python exception, reduced to what the worker loop reads from it: the
class name and str(e). -/
structure ExcInfo where
  className : String
  msg : String
deriving DecidableEq, Repr

/-- The error text built when json.loads or the params access fails inside
the worker loop. -/
def parseErrorMsg (e : ExcInfo) : String :=
  "Error parsing received payload (" ++ e.className ++ "): " ++ e.msg

/-- The error text built when the handler function raises inside the worker
loop. -/
def handlerErrorMsg (e : ExcInfo) : String :=
  "Error calling handler function (" ++ e.className ++ "): " ++ e.msg

/-- The response value a worker iteration sends: the handler result, or an
error dictionary carrying one of the two formatted error texts. -/
inductive RspPayload
  | success (v : String)
  | errMsg (s : String)
deriving DecidableEq, Repr

/-- The observable effects of one iteration of Consumers._run after the
receive step: the ack_req calls issued, the send_rsp calls issued, and
whether the iteration skipped straight to the next loop round. -/
structure IterEffects where
  acks : List (Option String)
  rsps : List (Option String × RspPayload)
  skipped : Bool
deriving DecidableEq, Repr

/-- One iteration of the Consumers._run loop body after MQ.recv_req returned
(reqId, reqPayload).  When the payload is Python-falsy (absent or the empty
string) the code continues to the next round at once.  Otherwise decode
stands for json.loads followed by the params access, handler for the handler
function; each is tried and a raised exception is caught and turned into the
corresponding error response, after which the code always acks the request
and sends exactly one response. -/
def runIteration (reqId : Option String) (reqPayload : Option String)
    (decode : String → Except ExcInfo String)
    (handler : String → Except ExcInfo String) : IterEffects :=
  match reqPayload with
  | none => { acks := [], rsps := [], skipped := true }
  | some p =>
    if p = "" then { acks := [], rsps := [], skipped := true }
    else
      let rsp : RspPayload :=
        match decode p with
        | Except.error e => RspPayload.errMsg (parseErrorMsg e)
        | Except.ok params =>
          match handler params with
          | Except.error e => RspPayload.errMsg (handlerErrorMsg e)
          | Except.ok v => RspPayload.success v
      { acks := [reqId], rsps := [(reqId, rsp)], skipped := false }

/-! Helper lemmas about the state primitives. -/

theorem str_append_left_cancel (p a b : String) (h : p ++ a = p ++ b) :
    a = b := by
  obtain ⟨pd⟩ := p
  obtain ⟨ad⟩ := a
  obtain ⟨bd⟩ := b
  simp only [HAppend.hAppend, Append.append, String.append] at h
  injection h with h
  exact congrArg String.mk (List.append_cancel_left h)

theorem rspQueueKey_inj (name a b : String)
    (h : rspQueueKey name a = rspQueueKey name b) : a = b := by
  unfold rspQueueKey at h
  exact str_append_left_cancel _ _ _ h

theorem lookup_cons_ne {β : Type} (l : List (String × β)) (k k2 : String)
    (v : β) (h : k2 ≠ k) : ((k, v) :: l).lookup k2 = l.lookup k2 := by
  have hb : (k2 == k) = false := beq_eq_false_iff_ne.mpr h
  rw [List.lookup_cons, hb]

theorem lookup_filter_self {β : Type} (l : List (String × β)) (k : String) :
    (l.filter (fun p => p.1 != k)).lookup k = none := by
  induction l with
  | nil => rfl
  | cons hd tl ih =>
    obtain ⟨k1, v1⟩ := hd
    rw [List.filter_cons]
    by_cases h : k1 = k
    · subst h
      simp [ih]
    · simp only [bne_iff_ne, ne_eq, h, not_false_eq_true, if_true]
      rw [lookup_cons_ne _ _ _ _ (Ne.symm h)]
      exact ih

theorem storeGet_storeDel_self (st : RedisState) (k : String) :
    storeGet (storeDel st k) k = none := by
  simp only [storeGet, storeDel]
  exact lookup_filter_self st.store k

theorem queueGet_publish (st : RedisState) (topic msg k : String) :
    queueGet (publish st topic msg) k = queueGet st k := rfl

theorem queueGet_queuePush_ne (st : RedisState) (k k2 v : String)
    (h : k2 ≠ k) : queueGet (queuePush st k v) k2 = queueGet st k2 := by
  simp only [queueGet, queuePush]
  rw [lookup_cons_ne _ _ _ _ h]

theorem queuePop_fst (st : RedisState) (k : String) :
    (queuePop st k).1 = (queueGet st k).head? := by
  unfold queuePop
  cases queueGet st k <;> rfl

/-! Claim theorems. -/

/-- C1: evaluation at the failing input.  Sender.send_req on the empty
state, with the store SET forced to fail and the queue RPUSH succeeding: the
call returns none, yet the identifier sits in the request queue and no
payload is stored — the pipeline executed both commands independently and
did not roll back the push, so the all-or-nothing pair the claim asserts
does not hold on the state. -/
theorem send_req_orphan_on_set_failure :
    (send_req ⟨[], [], []⟩ "chan" none "v" "id-1" false true).1 = none ∧
    queueGet (send_req ⟨[], [], []⟩ "chan" none "v" "id-1" false true).2
      (reqQueueKey "chan") = ["id-1"] ∧
    storeGet (send_req ⟨[], [], []⟩ "chan" none "v" "id-1" false true).2
      (reqKey "id-1") = none := by
  decide

/-- C3: Receiver.ack_req acknowledges in the queue primitive and deletes the
stored payload; it deletes only after the queue-side ack succeeded (on ack
failure the state, so in particular the stored payload, is unchanged and the
call returns failure), the deletion removes the payload, and the call
returns success only when both the ack and the delete succeeded. -/
theorem ack_req_two_phase (st : RedisState) (id : String) :
    ack_req st id false = (false, st) ∧
    (ack_req st id true).1 = storeHas st (reqKey id) ∧
    storeGet (ack_req st id true).2 (reqKey id) = none ∧
    (∀ ackOk : Bool, (ack_req st id ackOk).1 = true →
      ackOk = true ∧ storeHas st (reqKey id) = true) := by
  refine ⟨by simp [ack_req], by simp [ack_req], ?_, ?_⟩
  · simp only [ack_req, if_true]
    exact storeGet_storeDel_self st (reqKey id)
  · intro ackOk hret
    cases ackOk with
    | false => simp [ack_req] at hret
    | true =>
      refine ⟨rfl, ?_⟩
      simpa [ack_req] using hret

/-- C3 witness: ack_req on a state holding the payload, with the queue ack
succeeding and the call reporting success. -/
theorem ack_req_two_phase_witness :
    true = true ∧ storeHas ⟨[(reqKey "i", "v")], [], []⟩ (reqKey "i") = true :=
  (ack_req_two_phase ⟨[(reqKey "i", "v")], [], []⟩ "i").2.2.2 true (by decide)

/-- C4: Receiver.send_rsp returns success exactly when the queue push
succeeded, and the notification carrying the identifier is published on the
response-ready topic exactly when the push succeeded (on push failure the
publication log is unchanged); the pushed payload lands at the tail of the
identifier-scoped response queue. -/
theorem send_rsp_publish_iff_push (st : RedisState) (name id value : String)
    (pushOk : Bool) :
    (send_rsp st name id value pushOk).1 = pushOk ∧
    (send_rsp st name id value pushOk).2.published =
      (if pushOk then st.published ++ [(rspTopic name, id)]
       else st.published) ∧
    queueGet (send_rsp st name id value pushOk).2 (rspQueueKey name id) =
      (if pushOk then queueGet st (rspQueueKey name id) ++ [value]
       else queueGet st (rspQueueKey name id)) := by
  cases pushOk with
  | false => simp [send_rsp]
  | true =>
    refine ⟨rfl, rfl, ?_⟩
    simp [send_rsp, publish, queuePush, queueGet, List.lookup_cons]

/-- C5: within one named channel, distinct request identifiers address
distinct response sub-queue keys, and a successful send_rsp for identifier a
leaves retrieval for a distinct identifier b unaffected: get_rsp (and the
blocking recv_rsp, which pops the same key) can never return a payload
pushed under a different identifier. -/
theorem rsp_no_cross_delivery (st : RedisState) (name a b value : String)
    (hab : a ≠ b) :
    rspQueueKey name a ≠ rspQueueKey name b ∧
    (get_rsp (send_rsp st name a value true).2 name b).1 =
      (get_rsp st name b).1 := by
  have hkey : rspQueueKey name a ≠ rspQueueKey name b :=
    fun he => hab (rspQueueKey_inj name a b he)
  refine ⟨hkey, ?_⟩
  show (queuePop (send_rsp st name a value true).2 (rspQueueKey name b)).1 =
    (queuePop st (rspQueueKey name b)).1
  rw [queuePop_fst, queuePop_fst]
  have h2 : queueGet (send_rsp st name a value true).2 (rspQueueKey name b) =
      queueGet st (rspQueueKey name b) := by
    show queueGet (publish (queuePush st (rspQueueKey name a) value)
      (rspTopic name) a) (rspQueueKey name b) = queueGet st (rspQueueKey name b)
    rw [queueGet_publish, queueGet_queuePush_ne _ _ _ _ (Ne.symm hkey)]
  rw [h2]

/-- C5 witness: two concrete distinct identifiers on one channel. -/
theorem rsp_no_cross_delivery_witness :
    rspQueueKey "n" "a" ≠ rspQueueKey "n" "b" ∧
    (get_rsp (send_rsp ⟨[], [], []⟩ "n" "a" "v" true).2 "n" "b").1 =
      (get_rsp ⟨[], [], []⟩ "n" "b").1 :=
  rsp_no_cross_delivery ⟨[], [], []⟩ "n" "a" "b" "v" (by decide)

/-- C6: Receiver.recv_req returns (none, none) when the blocking pop timed
out with no identifier, and returns the popped identifier paired with the
payload loaded from the store under the request-scoped key when a (nonempty)
identifier was popped within the timeout. -/
theorem recv_req_pairs_id_with_payload (st : RedisState)
    (popped : Option String) :
    (popped = none → recv_req st popped = (none, none)) ∧
    (∀ id : String, popped = some id → id ≠ "" →
      recv_req st popped = (some id, storeGet st (reqKey id))) := by
  constructor
  · intro h
    subst h
    rfl
  · intro id h hne
    subst h
    simp [recv_req, hne]

/-- C6 witness: a concrete popped identifier whose payload sits in the
store. -/
theorem recv_req_pairs_id_with_payload_witness :
    recv_req ⟨[(reqKey "a", "payload")], [], []⟩ (some "a") =
      (some "a", storeGet ⟨[(reqKey "a", "payload")], [], []⟩ (reqKey "a")) :=
  (recv_req_pairs_id_with_payload ⟨[(reqKey "a", "payload")], [], []⟩
    (some "a")).2 "a" rfl (by decide)

/-- C7: send_message always first issues the remote send_req call; when the
remote recv_rsp call yields no payload within the timeout it raises the
TimeoutError (and in particular never acknowledges), and when a payload
arrives it acknowledges the response and returns the decoded payload. -/
theorem send_message_composition (svc fn payload : String) (tmo : Nat)
    (reqId rsp : String) (decode : String → String) :
    (send_message svc fn payload tmo reqId rsp decode).1.head? =
      some (MQEffect.sendReqE svc fn payload) ∧
    (rsp = "" →
      (send_message svc fn payload tmo reqId rsp decode).2 =
        Except.error (timeoutMsg svc fn) ∧
      ∀ s f i pl, MQEffect.ackRspE s f i pl ∉
        (send_message svc fn payload tmo reqId rsp decode).1) ∧
    (rsp ≠ "" →
      (send_message svc fn payload tmo reqId rsp decode).1 =
        [MQEffect.sendReqE svc fn payload,
         MQEffect.recvRspE svc fn reqId tmo,
         MQEffect.ackRspE svc fn reqId rsp] ∧
      (send_message svc fn payload tmo reqId rsp decode).2 =
        Except.ok (decode rsp)) := by
  by_cases h : rsp = "" <;> simp [send_message, h]

/-- C7 witness: a concrete response payload arriving in time is decoded and
returned after the acknowledgment. -/
theorem send_message_composition_witness :
    (send_message "svc" "fn" "pl" 1 "r1" "rsp" (fun s => s)).1 =
      [MQEffect.sendReqE "svc" "fn" "pl", MQEffect.recvRspE "svc" "fn" "r1" 1,
       MQEffect.ackRspE "svc" "fn" "r1" "rsp"] ∧
    (send_message "svc" "fn" "pl" 1 "r1" "rsp" (fun s => s)).2 =
      Except.ok "rsp" :=
  (send_message_composition "svc" "fn" "pl" 1 "r1" "rsp" (fun s => s)).2.2
    (by decide)

/-- C2 counterexample: a request received with the empty-string payload.
json.loads of the empty string raises, so this request falls under the
decoding-failure case of the claim, yet the worker issues no acknowledgment
and no response at all: it skips the iteration before the decode step. -/
theorem worker_ack_once_counterexample :
    ¬ (((runIteration (some "req-1") (some "")
          (fun _ => Except.error ⟨"ValueError", "Expecting value"⟩)
          (fun s => Except.ok s)).acks.length = 1) ∧
       ((runIteration (some "req-1") (some "")
          (fun _ => Except.error ⟨"ValueError", "Expecting value"⟩)
          (fun s => Except.ok s)).rsps.length = 1)) := by
  decide

/-- C2 amended: for every request received with a present, non-empty
payload, whatever the decode and handler outcomes, the worker acknowledges
the request exactly once, sends exactly one response, and proceeds to the
next iteration rather than terminating; a request received with an absent or
empty payload is skipped with no acknowledgment and no response. -/
theorem worker_ack_once (reqId : Option String) (p : String)
    (decode handler : String → Except ExcInfo String) (hp : p ≠ "") :
    (runIteration reqId (some p) decode handler).acks.length = 1 ∧
    (runIteration reqId (some p) decode handler).rsps.length = 1 ∧
    (runIteration reqId (some p) decode handler).skipped = false := by
  simp [runIteration, hp]

/-- C2 witness: a concrete nonempty payload whose decode fails still yields
one acknowledgment and one response. -/
theorem worker_ack_once_witness :
    (runIteration (some "req-1") (some "x")
      (fun _ => Except.error ⟨"ValueError", "bad"⟩)
      (fun s => Except.ok s)).acks.length = 1 :=
  (worker_ack_once (some "req-1") "x"
    (fun _ => Except.error ⟨"ValueError", "bad"⟩)
    (fun s => Except.ok s) (by decide)).1

/-- C8 counterexample: the empty-string payload fails to decode (the decoder
raises on it), yet the worker produces no error response for it — it skips
the iteration before ever reaching the decode step. -/
theorem decode_error_response_counterexample :
    (fun _ => Except.error (⟨"ValueError", "Expecting value"⟩ : ExcInfo)
      : String → Except ExcInfo String) "" =
      Except.error (⟨"ValueError", "Expecting value"⟩ : ExcInfo) ∧
    (runIteration (some "req-2") (some "")
      (fun _ => Except.error (⟨"ValueError", "Expecting value"⟩ : ExcInfo))
      (fun s => Except.ok s)).rsps = [] :=
  ⟨rfl, by decide⟩

/-- C8 amended: for every request whose non-empty payload fails to decode,
the worker sends exactly the error response tagged with the failing
exception class name and message, and the handler is never invoked (the
iteration outcome is independent of the handler function); a request with an
empty payload is skipped without any response. -/
theorem decode_error_response (reqId : Option String) (p : String)
    (e : ExcInfo) (decode h1 h2 : String → Except ExcInfo String)
    (hp : p ≠ "") (hd : decode p = Except.error e) :
    (runIteration reqId (some p) decode h1).rsps =
      [(reqId, RspPayload.errMsg
        ("Error parsing received payload (" ++ e.className ++ "): "
          ++ e.msg))] ∧
    runIteration reqId (some p) decode h1 =
      runIteration reqId (some p) decode h2 := by
  constructor <;> simp [runIteration, parseErrorMsg, hp, hd]

/-- C8 witness: a concrete undecodable nonempty payload produces the tagged
error response whatever the handler is. -/
theorem decode_error_response_witness :
    (runIteration (some "req-3") (some "notjson")
      (fun _ => Except.error ⟨"JSONDecodeError", "bad json"⟩)
      (fun s => Except.ok s)).rsps =
      [(some "req-3", RspPayload.errMsg
        ("Error parsing received payload (" ++ "JSONDecodeError" ++ "): "
          ++ "bad json"))] :=
  (decode_error_response (some "req-3") "notjson" ⟨"JSONDecodeError", "bad json"⟩
    (fun _ => Except.error ⟨"JSONDecodeError", "bad json"⟩)
    (fun s => Except.ok s) (fun s => Except.ok s)
    (by decide) rfl).1

/-- C9 counterexample: the caller supplies the identifier as the empty
string; send_req succeeds but returns the freshly generated identifier, not
the supplied one — with a supplied identifier a fresh one is still
generated, because the code tests Python truthiness, not absence. -/
theorem send_req_returns_given_id_counterexample :
    (send_req ⟨[], [], []⟩ "chan" (some "") "v" "uuid-1" true true).1 =
      some "uuid-1" ∧
    some "uuid-1" ≠ (some "" : Option String) := by
  decide

/-- C9 amended: Sender.send_req adopts the freshly generated identifier
exactly when the caller supplies none or supplies the empty string (both are
Python-falsy), and when the caller supplies a non-empty identifier the
identifier returned on success is the supplied one. -/
theorem send_req_returns_given_id (st : RedisState)
    (name value fresh : String) :
    (∀ setOk pushOk : Bool,
      (send_req st name none value fresh setOk pushOk).1 =
        if setOk && pushOk then some fresh else none) ∧
    (∀ setOk pushOk : Bool,
      (send_req st name (some "") value fresh setOk pushOk).1 =
        if setOk && pushOk then some fresh else none) ∧
    (∀ s : String, s ≠ "" → ∀ setOk pushOk : Bool,
      (send_req st name (some s) value fresh setOk pushOk).1 =
        if setOk && pushOk then some s else none) := by
  refine ⟨fun setOk pushOk => rfl, fun setOk pushOk => by simp [send_req, chooseId], ?_⟩
  intro s hs setOk pushOk
  simp [send_req, chooseId, hs]

/-- C9 witness: a concrete non-empty supplied identifier is the one returned
on success. -/
theorem send_req_returns_given_id_witness :
    (send_req ⟨[], [], []⟩ "chan" (some "abc") "v" "uuid-2" true true).1 =
      if true && true then some "abc" else none :=
  (send_req_returns_given_id ⟨[], [], []⟩ "chan" "v" "uuid-2").2.2 "abc"
    (by decide) true true

/-- C10: a worker iteration whose receive step yields a missing payload or
an empty payload neither acknowledges the request nor sends any response: it
skips straight to the next loop round, so the popped identifier is consumed
without acknowledgment. -/
theorem worker_skips_falsy_payload (reqId : Option String)
    (decode handler : String → Except ExcInfo String) :
    runIteration reqId none decode handler =
      { acks := [], rsps := [], skipped := true } ∧
    runIteration reqId (some "") decode handler =
      { acks := [], rsps := [], skipped := true } := by
  constructor <;> simp [runIteration]

end RedisMQ
